import Mathlib

/-!
Shallow embedding of `packages/components/nodes/langgraph/Worker/Worker.ts`
(the multi-agent Worker node) and theorems about the properties of its
agent compiler, worker adapter and iteration-cap handling.

JavaScript-specific behaviour is embedded explicitly:
* string/number truthiness is modelled by comparison with the falsy values;
* the `+`/`?:` operator precedence of the source is kept exactly as the
  JavaScript grammar parses it (binary `+` binds tighter than `?:`);
* `undefined`/`null` are modelled with `Option`, and the JS number `NaN`
  produced by `parseFloat` on a non-numeric string is modelled as the
  `none` case of an `Option ℚ` (every `<` comparison against it is false).
-/

namespace Worker

/-- A tool as the worker sees it: the compiler only reads its `name`
(for the prompt restatement) and forwards name and description into the
model binding schema. -/
structure ToolSpec where
  name : String
  description : String
deriving DecidableEq

/-- The `examplePrompt` constant of the source (default worker prompt). -/
def examplePrompt : String :=
  "You are a research assistant who can search for up-to-date info using search engine."

/-- Source: `const toolNames = tools.length ? tools.map((t) => t.name).join(', ') : ''`.
The JS number `tools.length` is truthy exactly when it is non-zero. -/
def toolNames (tools : List ToolSpec) : String :=
  if tools.length ≠ 0 then String.intercalate ", " (tools.map (fun t => t.name)) else ""

/-- Source lines 112-117: the leading system segment, the caller's prompt
concatenated with the fixed autonomous-behaviour boilerplate. -/
def combinedPrompt (systemPrompt : String) : String :=
  systemPrompt ++
    "\nWork autonomously according to your specialty, using the tools available to you." ++
    " Do not ask for clarification." ++
    " Your other team members (and other teams) will collaborate with you with their own specialties." ++
    " You are chosen for a reason! You are one of the following team members: {team_members}."

/-- Source lines 123-130, kept exactly as the JavaScript grammar parses the
expression: binary `+` binds tighter than `?:`, so the condition of the
conditional is the concatenation
`'Supervisor instructions: \x7binstructions\x7d\n' + tools.length`
(a string, truthy because it is non-empty), the then-branch is the template
literal restating the tool names, and the else-branch is
`'' + '\n\nEnd if you have already completed the requested task. ...'`.
The one-element array is then joined with newlines. -/
def trailingSegment (tools : List ToolSpec) : String :=
  String.intercalate "\n"
    [if ("Supervisor instructions: {instructions}\n" ++ toString tools.length) ≠ "" then
        "Remember, you individually can only use these tools: " ++ toolNames tools
      else
        "" ++ "\n\nEnd if you have already completed the requested task. Communicate the work completed."]

/-- Bool test that `pat` occurs as a contiguous run inside `s` (over
character lists), used to state which clauses a rendered segment holds. -/
def occursIn (pat s : List Char) : Bool :=
  (List.range (s.length + 1)).any (fun i => (s.drop i).take pat.length == pat)

/-- One entry of the `ChatPromptTemplate.fromMessages` list: either a
system message with literal content or a `MessagesPlaceholder`. -/
inductive PromptMessage where
  | system (content : String)
  | placeholder (variableName : String)
deriving DecidableEq

/-- Source lines 119-131: the compiled prompt template, in order — the
combined system segment, the messages placeholder, the scratchpad
placeholder, and the trailing system segment. -/
def compiledPrompt (systemPrompt : String) (tools : List ToolSpec) : List PromptMessage :=
  [PromptMessage.system (combinedPrompt systemPrompt),
   PromptMessage.placeholder "messages",
   PromptMessage.placeholder "agent_scratchpad",
   PromptMessage.system (trailingSegment tools)]

/-- Value of a string of decimal digits (most significant first). -/
def digitsToNat (l : List Char) : ℕ :=
  l.foldl (fun a c => 10 * a + (c.toNat - Char.toNat (Char.ofNat 48))) 0

/-- Model of the JavaScript builtin `parseFloat`, restricted to the inputs
this node can meet: leading spaces are skipped, an optional sign is read,
then the longest prefix of decimal digits with an optional fraction part
(exponents and the Infinity literal are outside the model); trailing
characters are ignored. When no digit at all is found the JS result is
`NaN`, modelled here as `none`. -/
def parseFloat (s : String) : Option ℚ :=
  let cs := s.data.dropWhile (fun c => c = ' ')
  let sign : ℚ := match cs with
    | '-' :: _ => -1
    | _ => 1
  let cs1 := match cs with
    | '-' :: rest => rest
    | '+' :: rest => rest
    | _ => cs
  let intPart := cs1.takeWhile Char.isDigit
  let rest1 := cs1.dropWhile Char.isDigit
  let fracPart := match rest1 with
    | '.' :: r => r.takeWhile Char.isDigit
    | _ => []
  if intPart.isEmpty && fracPart.isEmpty then none
  else some (sign * ((digitsToNat intPart : ℚ) + (digitsToNat fracPart : ℚ) / (10 : ℚ) ^ fracPart.length))

/-- The JS value handed to `AgentExecutor.fromAgentAndTools` as the
iteration cap: `none` is `undefined` (no cap), `some none` is `NaN`,
`some (some q)` is the finite number `q`. -/
abbrev JsCap := Option (Option ℚ)

/-- Source line 146: `maxIterations ? parseFloat(maxIterations) : undefined`.
The raw input is `undefined` (`none`) or a string; `undefined` and the
empty string are falsy, every other string is truthy and goes through
`parseFloat`. -/
def effectiveMaxIterations : Option String → JsCap
  | none => none
  | some s => if s = "" then none else some (parseFloat s)

/-- One tool schema entry in the model binding, as produced by
`convertToOpenAITool` (name, description; the input schema is carried
opaquely by the name/description pair at this level of the model). -/
structure OpenAITool where
  name : String
  description : String
deriving DecidableEq

/-- The `convertToOpenAITool` helper: one schema entry per tool. -/
def convertToOpenAITool (t : ToolSpec) : OpenAITool :=
  { name := t.name, description := t.description }

/-- State of the model handle after the binding step: either `bind` was
never called, or it was called with an explicit tools argument
(`none` standing for `tools: undefined`). -/
inductive ModelBinding where
  | unbound
  | bound (tools : Option (List OpenAITool))
deriving DecidableEq

/-- Source line 133:
`tools.length ? llm.bind(...tools.map(convertToOpenAITool)...) : llm.bind(...undefined...)`.
Both branches call `bind`; the empty toolset binds with an explicit
undefined tools argument. -/
def modelWithTools (tools : List ToolSpec) : ModelBinding :=
  if tools.length ≠ 0 then ModelBinding.bound (some (tools.map convertToOpenAITool))
  else ModelBinding.bound none

/-- A message of the shared history; the source wraps worker answers as
`new HumanMessage(\x7b content: result.output, name \x7d)`. -/
structure HumanMessage where
  content : String
  name : String
deriving DecidableEq

/-- The `ITeamState` snapshot the worker node receives. -/
structure ITeamState where
  messages : List HumanMessage
  instructions : String
  team_members : List String
deriving DecidableEq

/-- Result of one executor invocation as the executor surfaces it:
the final output text, plus whether the loop was force-stopped by the
iteration cap rather than by a natural final answer. -/
structure AgentResult where
  output : String
  earlyStopped : Bool
deriving DecidableEq

/-- The state delta a worker node returns to the graph engine. -/
structure StateDelta where
  messages : List HumanMessage
deriving DecidableEq

/-- Source lines 151-156, `agentNode`: invoke the executor on the snapshot
and wrap the final answer text as a single attributed message. Only
`result.output` and the worker name reach the returned delta. -/
def agentNode (agent : ITeamState → AgentResult) (name : String) (state : ITeamState) : StateDelta :=
  { messages := [{ content := (agent state).output, name := name }] }

/-- Source lines 85-93, the `workerNode` closure, with the input snapshot
threaded through explicitly: the source never assigns into `state`, so the
snapshot comes back unchanged next to the delta. -/
def workerNode (agent : ITeamState → AgentResult) (workerName : String) (state : ITeamState) :
    ITeamState × StateDelta :=
  (state, agentNode agent workerName state)

/-- Modelled from the spec: the surrounding graph engine (outside this
module) merges a worker delta into shared state by appending the delta
messages to the existing history — the messages channel is append-only. -/
def mergeDelta (state : ITeamState) (delta : StateDelta) : ITeamState :=
  { state with messages := state.messages ++ delta.messages }

/-- Truthiness of an optional JS string: `undefined` and `''` are falsy. -/
def jsTruthyStr : Option String → Bool
  | none => false
  | some s => s ≠ ""

/-- The `nodeData.inputs` fields `init` reads, after the lodash `flatten`
of the tools list; `none` models an absent (undefined) input, and the
supervisor handle is represented by its possibly-null `name`. -/
structure NodeInputs where
  tools : List ToolSpec
  workerPrompt : String
  workerName : Option String
  supervisorName : Option String
  maxIterations : Option String
deriving DecidableEq

/-- The `IMultiAgentNode` record `init` returns; the node closure is
represented by its compiled prompt, model binding and iteration cap. -/
structure WorkerOutput where
  name : String
  type : String
  parentSupervisorName : String
  prompt : List PromptMessage
  binding : ModelBinding
  cap : JsCap
deriving DecidableEq

/-- Source lines 71-103, `Worker_MultiAgents.init`: the worker name is
validated first (`if (!workerName) throw new Error('Worker name is required!')`)
and only then is the agent compiled; `supervisor.name ?? 'supervisor'`
is the nullish-coalescing default for the parent supervisor name. -/
def init (d : NodeInputs) : Except String WorkerOutput :=
  if !jsTruthyStr d.workerName then Except.error "Worker name is required!"
  else Except.ok
    { name := d.workerName.getD ""
      type := "worker"
      parentSupervisorName := d.supervisorName.getD "supervisor"
      prompt := compiledPrompt d.workerPrompt d.tools
      binding := modelWithTools d.tools
      cap := effectiveMaxIterations d.maxIterations }

/-- One model decision inside the execution loop: request a tool call or
produce the final answer. -/
inductive ModelResponse where
  | toolCall (toolName input : String)
  | finalAnswer (text : String)
deriving DecidableEq

/-- Rendering of a model response as output text (the forced-stop result
surfaces the last model output). -/
def responseText : ModelResponse → String
  | ModelResponse.toolCall n i => n ++ "(" ++ i ++ ")"
  | ModelResponse.finalAnswer t => t

/-- Outcome of one executor invocation in the loop model. -/
inductive LoopOutcome where
  | natural (answer : String)
  | forcedStop (lastOutput : String)
  | fuelExhausted
deriving DecidableEq

/-- The continue test of the loop against the JS cap value: an undefined
cap never stops the loop, and a numeric comparison where the cap is `NaN`
is false, so a `NaN` cap stops the loop before the first round. -/
def shouldContinue (cap : JsCap) (iterations : ℕ) : Bool :=
  match cap with
  | none => true
  | some none => false
  | some (some q) => decide ((iterations : ℚ) < q)

/-- Modelled from the spec: the `AgentExecutor` decision loop of section
4.1 (render, invoke the model once, dispatch the requested tool, repeat;
a final answer ends the loop naturally, exhausting the cap forces a stop
that surfaces the last model output). The executor class itself lives
outside this module. The model stub maps the round number to a response;
`fuel` only makes the recursion structural and is irrelevant whenever it
is large enough. Returns the number of model invocations performed and
the outcome. -/
def runLoop (model : ℕ → ModelResponse) (cap : JsCap) :
    ℕ → ℕ → String → ℕ × LoopOutcome
  | 0, iterations, _ => (iterations, LoopOutcome.fuelExhausted)
  | fuel + 1, iterations, lastOutput =>
    if shouldContinue cap iterations then
      match model iterations with
      | ModelResponse.finalAnswer t => (iterations + 1, LoopOutcome.natural t)
      | ModelResponse.toolCall n i =>
          runLoop model cap fuel (iterations + 1) (responseText (ModelResponse.toolCall n i))
    else (iterations, LoopOutcome.forcedStop lastOutput)

/-! Theorems. -/

/-- C1: at the failing input (empty toolset, the non-empty default
instruction), the trailing system segment of the compiled prompt is a
tool-name restatement with no names and does not contain the
end-if-task-complete boilerplate — the operator precedence of the source
makes the conditional's condition the concatenation of the supervisor
clause with the tool count, which is always truthy. This theorem records
the code's actual behaviour at that input. -/
theorem c1_trailing_segment_empty_tools_eval :
    (compiledPrompt examplePrompt []).get? 3 =
      some (PromptMessage.system (trailingSegment [])) ∧
    trailingSegment [] = "Remember, you individually can only use these tools: " ∧
    occursIn "End if you have already completed the requested task".data
      (trailingSegment []).data = false := by
  refine ⟨rfl, by decide, by decide⟩

/-- C2: the trailing system segment never contains the
"Supervisor instructions:" clause (the clause is absorbed into the
conditional's condition by operator precedence), and the tool-name
restatement appears even for the empty toolset. This theorem records the
code's actual behaviour at a one-tool toolset and at the empty toolset. -/
theorem c2_trailing_segment_supervisor_clause_eval :
    trailingSegment [⟨"search", "a search engine"⟩] =
      "Remember, you individually can only use these tools: search" ∧
    occursIn "Supervisor instructions:".data
      (trailingSegment [⟨"search", "a search engine"⟩]).data = false ∧
    occursIn "Remember, you individually can only use these tools:".data
      (trailingSegment []).data = true := by
  refine ⟨by decide, by decide, by decide⟩

/-- C3 counterexample: the raw input "abc" is not parseable as a number,
yet the computed cap is NaN (modelled `some none`), not the unbounded
marker (`none`) used when no limit is given; under the loop model a NaN
cap stops the loop before the first round, while the unbounded cap lets
the same model stub run to its natural answer after six rounds. -/
theorem c3_unparseable_cap_counterexample :
    effectiveMaxIterations (some "abc") = some none ∧
    effectiveMaxIterations (some "abc") ≠ effectiveMaxIterations none ∧
    runLoop (fun i => if i < 5 then ModelResponse.toolCall "search" "q"
        else ModelResponse.finalAnswer "done")
      (effectiveMaxIterations (some "abc")) 20 0 "" = (0, LoopOutcome.forcedStop "") ∧
    runLoop (fun i => if i < 5 then ModelResponse.toolCall "search" "q"
        else ModelResponse.finalAnswer "done")
      (effectiveMaxIterations none) 20 0 "" = (6, LoopOutcome.natural "done") := by
  refine ⟨by decide, by decide, by decide, by decide⟩

/-- C3 amended: an absent or empty-string maxIterations yields the
unbounded cap and is not an error; any other string is passed through
parseFloat, so a non-empty string with no parseable numeric prefix yields
the NaN cap — which is not the unbounded marker and stops the loop model
before the first round (still without raising an error). -/
theorem c3_effectiveMaxIterations_amended (s : String) (model : ℕ → ModelResponse)
    (fuel : ℕ) (hs : s ≠ "") (hnan : parseFloat s = none) (hfuel : 0 < fuel) :
    effectiveMaxIterations none = none ∧
    effectiveMaxIterations (some "") = none ∧
    effectiveMaxIterations (some s) = some none ∧
    runLoop model (effectiveMaxIterations (some s)) fuel 0 "" =
      (0, LoopOutcome.forcedStop "") := by
  have hcap : effectiveMaxIterations (some s) = some none := by
    simp [effectiveMaxIterations, hs, hnan]
  refine ⟨rfl, rfl, hcap, ?_⟩
  rw [hcap]
  cases fuel with
  | zero => omega
  | succ f => simp [runLoop, shouldContinue]

/-- Closed witness for the amended C3 theorem at the raw input "abc". -/
theorem c3_effectiveMaxIterations_amended_witness :
    effectiveMaxIterations none = none ∧
    effectiveMaxIterations (some "") = none ∧
    effectiveMaxIterations (some "abc") = some none ∧
    runLoop (fun _ => ModelResponse.finalAnswer "done")
      (effectiveMaxIterations (some "abc")) 3 0 "" =
      (0, LoopOutcome.forcedStop "") :=
  c3_effectiveMaxIterations_amended "abc" (fun _ => ModelResponse.finalAnswer "done") 3
    (by decide) (by decide) (by decide)

/-- C4: construction fails with the configuration error exactly when the
worker name is absent or empty (the check precedes agent compilation in
`init`), and succeeds — never producing this error — exactly when the
worker name is a non-empty string. -/
theorem c4_init_workerName_validation (d : NodeInputs) :
    (init d = Except.error "Worker name is required!" ↔
      (d.workerName = none ∨ d.workerName = some "")) ∧
    ((∃ w, init d = Except.ok w) ↔
      ¬(d.workerName = none ∨ d.workerName = some "")) := by
  cases h : d.workerName with
  | none => simp [init, jsTruthyStr, h]
  | some s =>
    by_cases hs : s = "" <;> simp [init, jsTruthyStr, h, hs]

/-- C5: the delta a successful invocation returns contains exactly one
message, whose content is the executor's final output and whose name is
the configured worker name; merging the delta appends it, leaving the
existing history unchanged in place. -/
theorem c5_delta_single_attributed_message (agent : ITeamState → AgentResult)
    (name : String) (state : ITeamState) :
    (agentNode agent name state).messages.length = 1 ∧
    (agentNode agent name state).messages =
      [{ content := (agent state).output, name := name }] ∧
    (mergeDelta state (agentNode agent name state)).messages =
      state.messages ++ [{ content := (agent state).output, name := name }] :=
  ⟨rfl, rfl, rfl⟩

/-- C6: invoking the worker node leaves the input snapshot unchanged in
every field; its only effect is the returned delta. -/
theorem c6_workerNode_preserves_state (agent : ITeamState → AgentResult)
    (workerName : String) (state : ITeamState) :
    (workerNode agent workerName state).1 = state ∧
    (workerNode agent workerName state).1.messages = state.messages ∧
    (workerNode agent workerName state).1.instructions = state.instructions ∧
    (workerNode agent workerName state).1.team_members = state.team_members ∧
    (workerNode agent workerName state).2 = agentNode agent workerName state :=
  ⟨rfl, rfl, rfl, rfl, rfl⟩

/-- C7: the binding step always calls bind — for a non-empty toolset with
exactly one converted schema entry per tool, order preserving; for the
empty toolset with an explicit undefined tools argument, never leaving the
model unbound. -/
theorem c7_modelWithTools_schema (tools : List ToolSpec)
    (hnodup : (tools.map ToolSpec.name).Nodup) :
    modelWithTools tools ≠ ModelBinding.unbound ∧
    (tools = [] → modelWithTools tools = ModelBinding.bound none) ∧
    (tools ≠ [] →
      modelWithTools tools = ModelBinding.bound (some (tools.map convertToOpenAITool)) ∧
      (tools.map convertToOpenAITool).length = tools.length ∧
      ∀ i, (tools.map convertToOpenAITool).get? i =
        (tools.get? i).map convertToOpenAITool) := by
  refine ⟨?_, ?_, ?_⟩
  · cases tools <;> simp [modelWithTools]
  · intro h
    subst h
    simp [modelWithTools]
  · intro h
    refine ⟨?_, by simp, fun i => by simp [List.get?_eq_getElem?, List.getElem?_map]⟩
    simp [modelWithTools, h]

/-- Closed witness for C7 at a one-tool toolset with duplicate-free names. -/
theorem c7_modelWithTools_schema_witness :
    modelWithTools [⟨"search", "a search engine"⟩] ≠ ModelBinding.unbound ∧
    (([⟨"search", "a search engine"⟩] : List ToolSpec) = [] →
      modelWithTools [⟨"search", "a search engine"⟩] = ModelBinding.bound none) ∧
    (([⟨"search", "a search engine"⟩] : List ToolSpec) ≠ [] →
      modelWithTools [⟨"search", "a search engine"⟩] =
        ModelBinding.bound (some ([⟨"search", "a search engine"⟩].map convertToOpenAITool)) ∧
      (([⟨"search", "a search engine"⟩] : List ToolSpec).map convertToOpenAITool).length =
        ([⟨"search", "a search engine"⟩] : List ToolSpec).length ∧
      ∀ i, (([⟨"search", "a search engine"⟩] : List ToolSpec).map convertToOpenAITool).get? i =
        (([⟨"search", "a search engine"⟩] : List ToolSpec).get? i).map convertToOpenAITool) :=
  c7_modelWithTools_schema [⟨"search", "a search engine"⟩] (by decide)

/-- C8 counterexample: two executor results that differ only in the
forced-stop marker produce identical worker-node deltas, so no marker
distinguishing a forced stop from a natural finish is observable in what
the worker node returns to the supervisor. -/
theorem c8_marker_not_observable_counterexample :
    agentNode (fun _ => { output := "done", earlyStopped := true }) "worker"
        { messages := [], instructions := "", team_members := [] } =
      agentNode (fun _ => { output := "done", earlyStopped := false }) "worker"
        { messages := [], instructions := "", team_members := [] } ∧
    ({ output := "done", earlyStopped := true } : AgentResult) ≠
      { output := "done", earlyStopped := false } :=
  ⟨rfl, by decide⟩

/-- C8 amended: the worker node surfaces the executor's output text as
the single message content (a usable result), but any forced-stop marker
the executor result carries is dropped: two results with equal output
text yield identical deltas regardless of their markers. -/
theorem c8_agentNode_output_only (a₁ a₂ : ITeamState → AgentResult) (name : String)
    (state : ITeamState) (h : (a₁ state).output = (a₂ state).output) :
    (agentNode a₁ name state).messages =
      [{ content := (a₁ state).output, name := name }] ∧
    agentNode a₁ name state = agentNode a₂ name state :=
  ⟨rfl, by simp [agentNode, h]⟩

/-- Closed witness for the amended C8 theorem at two concrete results. -/
theorem c8_agentNode_output_only_witness :
    (agentNode (fun _ => { output := "ok", earlyStopped := true }) "w"
        { messages := [], instructions := "", team_members := [] }).messages =
      [{ content := "ok", name := "w" }] ∧
    agentNode (fun _ => { output := "ok", earlyStopped := true }) "w"
        { messages := [], instructions := "", team_members := [] } =
      agentNode (fun _ => { output := "ok", earlyStopped := false }) "w"
        { messages := [], instructions := "", team_members := [] } :=
  c8_agentNode_output_only (fun _ => { output := "ok", earlyStopped := true })
    (fun _ => { output := "ok", earlyStopped := false }) "w"
    { messages := [], instructions := "", team_members := [] } rfl

/-- Helper: with a finite natural cap and a model that always requests a
tool call, the loop started at round j ≤ k finishes at exactly k rounds
with a forced stop, for any sufficient fuel. -/
theorem runLoop_forced_count (model : ℕ → ModelResponse) (k : ℕ)
    (hmodel : ∀ i, ∃ n inp, model i = ModelResponse.toolCall n inp) :
    ∀ fuel j last, j ≤ k → k - j < fuel →
      ∃ out, runLoop model (some (some (k : ℚ))) fuel j last =
        (k, LoopOutcome.forcedStop out) := by
  intro fuel
  induction fuel with
  | zero => intro j last hj hf; omega
  | succ f ih =>
    intro j last hj hf
    by_cases hjk : j < k
    · have hcont : shouldContinue (some (some (k : ℚ))) j = true := by
        simp only [shouldContinue, decide_eq_true_eq]
        exact_mod_cast hjk
      obtain ⟨n, inp, hm⟩ := hmodel j
      rw [runLoop, hcont, hm]
      exact ih (j + 1) (responseText (ModelResponse.toolCall n inp)) hjk (by omega)
    · have hjeq : j = k := le_antisymm hj (not_lt.1 hjk)
      have hcont : shouldContinue (some (some (k : ℚ))) j = false := by
        simp only [shouldContinue, hjeq, decide_eq_false_iff_not]
        exact lt_irrefl _
      rw [runLoop, hcont, hjeq]
      exact ⟨last, rfl⟩

/-- C9: with a compiled cap equal to the finite number k and a model that
always requests a tool call (never a final answer), the loop performs
exactly k rounds (model invocations) and then stops with a forced-stop
outcome — never k+1 rounds. -/
theorem c9_loop_exactly_k_rounds (raw : Option String) (model : ℕ → ModelResponse)
    (k fuel : ℕ) (hraw : effectiveMaxIterations raw = some (some (k : ℚ)))
    (hmodel : ∀ i, ∃ n inp, model i = ModelResponse.toolCall n inp)
    (hfuel : k < fuel) :
    ∃ out, runLoop model (effectiveMaxIterations raw) fuel 0 "" =
      (k, LoopOutcome.forcedStop out) := by
  rw [hraw]
  exact runLoop_forced_count model k hmodel fuel 0 "" (Nat.zero_le k) (by omega)

/-- Helper: the raw string "2" parses to the rational 2. The list and
character computations reduce definitionally; the remaining rational
arithmetic is closed by norm_num. -/
theorem parseFloat_two : parseFloat "2" = some 2 := by
  have h : parseFloat "2" = some (1 * ((2 : ℚ) + 0 / 10 ^ (0 : ℕ))) := rfl
  rw [h]
  norm_num

/-- Closed witness for C9: raw cap "2", a stub that always requests the
search tool, fuel 5 — exactly two rounds, then a forced stop. -/
theorem c9_loop_exactly_k_rounds_witness :
    ∃ out, runLoop (fun _ => ModelResponse.toolCall "search" "q")
      (effectiveMaxIterations (some "2")) 5 0 "" =
      ((2 : ℕ), LoopOutcome.forcedStop out) :=
  c9_loop_exactly_k_rounds (some "2") (fun _ => ModelResponse.toolCall "search" "q") 2 5
    (by simp [effectiveMaxIterations, parseFloat_two])
    (fun _ => ⟨"search", "q", rfl⟩) (by omega)

/-- C10: when the supervisor handle's name is null or undefined the
returned worker's parentSupervisorName is the literal "supervisor";
otherwise it equals the supervisor's name (nullish coalescing, so even an
empty supervisor name is kept as-is). -/
theorem c10_parentSupervisorName (d : NodeInputs) (w : WorkerOutput)
    (h : init d = Except.ok w) :
    (d.supervisorName = none → w.parentSupervisorName = "supervisor") ∧
    (∀ s, d.supervisorName = some s → w.parentSupervisorName = s) := by
  unfold init at h
  split at h
  · exact absurd h (by simp)
  · injection h with h
    subst h
    constructor
    · intro hn
      simp [hn]
    · intro s hs
      simp [hs]

/-- Closed witness for C10 at a construction input with a null supervisor
name. -/
theorem c10_parentSupervisorName_witness :
    ({ name := "worker", type := "worker", parentSupervisorName := "supervisor",
       prompt := compiledPrompt "p" [], binding := ModelBinding.bound none,
       cap := none } : WorkerOutput).parentSupervisorName = "supervisor" :=
  (c10_parentSupervisorName ⟨[], "p", some "worker", none, none⟩
    { name := "worker", type := "worker", parentSupervisorName := "supervisor",
      prompt := compiledPrompt "p" [], binding := ModelBinding.bound none,
      cap := none } rfl).1 rfl

end Worker
